import Mathlib

/-!
Verification of the scene-item ordering core of an OBS remote-control
plugin (`src/WSRequestHandler_Scenes.cpp`), against its design
specification.

The embedding models the three ordering operations
(`HandleReorderSceneItems`, `HandleSetSceneItemIndex`,
`HandleSetSceneItemOrder`) as pure functions from a world (the
compositor-owned scene store) and a parsed request object to a result
holding the response, the updated world, and a trace of the compositor
calls the handler performed.  The external compositor primitives
(`obs_scene_reorder_items2`, `obs_scene_find_source`,
`obs_sceneitem_set_order`, `obs_sceneitem_set_order_position`,
`obs_scene_atomic_update`) are modelled from their contracts in the
specification; the handlers themselves are translated line by line from
the C++ source.
-/

/-- A scene item: a compositor-assigned numeric id (unique within its
owning scene) and the name of the underlying source (not necessarily
unique within a scene). -/
structure SceneItem where
  id : Int
  name : String
deriving DecidableEq, Repr

/-- A scene: a unique name owning an ordered sequence of items.
Index 0 of `items` is position 0 of the order. -/
structure Scene where
  name : String
  items : List SceneItem
deriving DecidableEq, Repr

/-- The compositor-owned scene store: all scenes plus the name of the
currently active scene. -/
structure World where
  scenes : List Scene
  currentName : String
deriving DecidableEq, Repr

/-- An item identifier inside a reorder list: an optional numeric id
and/or an optional name (`items[].id`, `items[].name`). -/
structure ItemIdent where
  id : Option Int
  name : Option String
deriving DecidableEq, Repr

/-- A value stored in a request object (`obs_data_t` field): a string,
a 64-bit integer, an array of item-identifier objects, or a nested
object. -/
inductive ObsVal where
  | vStr (s : String)
  | vInt (n : Int)
  | vArr (a : List ItemIdent)
  | vObj (o : ItemIdent)
deriving DecidableEq, Repr

/-- A parsed request object: a list of named fields. -/
def ObsData := List (String × ObsVal)

instance : DecidableEq ObsData :=
  inferInstanceAs (DecidableEq (List (String × ObsVal)))

instance : Repr ObsData :=
  inferInstanceAs (Repr (List (String × ObsVal)))

/-- `WSRequestHandler::hasField`: the request object has a field of the
given name. -/
def hasField (d : ObsData) (k : String) : Bool :=
  d.any (fun p => p.1 == k)

/-- `obs_data_get_string`: the string value of the field, or the empty
string when the field is absent or not a string. -/
def getString (d : ObsData) (k : String) : String :=
  match d.find? (fun p => p.1 == k) with
  | some (_, ObsVal.vStr s) => s
  | _ => ""

/-- `obs_data_get_int`: the integer value of the field (a C `long long`),
or 0 when the field is absent or not an integer. -/
def getInt (d : ObsData) (k : String) : Int :=
  match d.find? (fun p => p.1 == k) with
  | some (_, ObsVal.vInt n) => n
  | _ => 0

/-- `obs_data_get_array`: the array value of the field, or none when the
field is absent or not an array (the C API returns a null pointer). -/
def getArray (d : ObsData) (k : String) : Option (List ItemIdent) :=
  match d.find? (fun p => p.1 == k) with
  | some (_, ObsVal.vArr a) => some a
  | _ => none

/-- `obs_get_source_by_name` followed by `obs_scene_from_source`: the
scene of the given name, if any (the world holds scenes only, so every
named source here is a scene). -/
def findScene (w : World) (n : String) : Option Scene :=
  w.scenes.find? (fun s => s.name == n)

/-- `obs_scene_find_source`: the first item in scene order whose source
name equals the given name. -/
def findSource (scene : Scene) (n : String) : Option SceneItem :=
  scene.items.find? (fun it => it.name == n)

/-- First item in the list whose name equals `n` — the specification's
name-resolution rule written as a direct recursion, for comparison with
`findSource`. -/
def firstNameMatch (items : List SceneItem) (n : String) : Option SceneItem :=
  match items with
  | [] => none
  | it :: rest => if it.name == n then some it else firstNameMatch rest n

/-- Modelled from the spec: `Utils::GetSceneFromNameOrCurrent` is not
under `src/`; per §4.1, a non-empty name is looked up exactly and an
empty name yields the currently active scene. -/
def getSceneFromNameOrCurrent (w : World) (n : String) : Option Scene :=
  if n == "" then findScene w w.currentName else findScene w n

/-- Modelled from the spec: `Utils::GetSceneItemFromItem` is not under
`src/`; per §3/§4.2, a present id is authoritative and resolved by exact
id match, otherwise the first item in scene order matching the name is
returned. -/
def getSceneItemFromItem (scene : Scene) (ident : ItemIdent) : Option SceneItem :=
  match ident.id with
  | some i => scene.items.find? (fun it => it.id == i)
  | none =>
    match ident.name with
    | some n => scene.items.find? (fun it => it.name == n)
    | none => none

/-- The four relative move directions (`obs_order_movement`). -/
inductive Movement where
  | up
  | down
  | top
  | bottom
deriving DecidableEq, Repr

/-- The order-token match chain of `HandleSetSceneItemOrder`
(lines 241-255 of the source). -/
def parseMovement (s : String) : Option Movement :=
  if s == "OBS_ORDER_MOVE_UP" then some Movement.up
  else if s == "OBS_ORDER_MOVE_DOWN" then some Movement.down
  else if s == "OBS_ORDER_MOVE_TOP" then some Movement.top
  else if s == "OBS_ORDER_MOVE_BOTTOM" then some Movement.bottom
  else none

/-- A compositor call performed by a handler, in order. -/
inductive Ev where
  | beginAtomic (sceneName : String)
  | endAtomic (sceneName : String)
  | applyFullOrder (sceneName : String) (order : List SceneItem)
  | setOrderPosition (itemId : Int) (pos : Int)
  | setOrder (itemId : Int) (mv : Movement)
deriving DecidableEq, Repr

/-- A handler response: success (with an optional payload object) or an
error message. -/
inductive Response where
  | ok (payload : Option ObsData)
  | err (msg : String)
deriving DecidableEq, Repr

/-- Result of running a handler: its response, the world afterwards, and
the trace of compositor calls it made. -/
structure HandlerResult where
  response : Response
  world : World
  trace : List Ev
deriving DecidableEq, Repr

/-- Replace the order of the scene of the given name in the world. -/
def setSceneOrder (w : World) (n : String) (order : List SceneItem) : World :=
  { w with scenes := w.scenes.map (fun s => if s.name == n then { s with items := order } else s) }

/-- `QVector::insert(0, info)` loop of `HandleReorderSceneItems`
(lines 144-157): resolve each identifier left to right, inserting each
resolved item at the FRONT of the accumulating order list; fail on the
first identifier that does not resolve. -/
def buildOrderList (scene : Scene) : List ItemIdent → List SceneItem → Option (List SceneItem)
  | [], acc => some acc
  | ident :: rest, acc =>
    match getSceneItemFromItem scene ident with
    | none => none
    | some it => buildOrderList scene rest (it :: acc)

/-- The resolved sequence of a reorder list, in the caller's order:
each identifier resolved via the item resolver, failing if any does
not resolve. -/
def resolveAll (scene : Scene) : List ItemIdent → Option (List SceneItem)
  | [] => some []
  | ident :: rest =>
    match getSceneItemFromItem scene ident, resolveAll scene rest with
    | some it, some res => some (it :: res)
    | _, _ => none

/-- Whether a list of items contains a duplicate. -/
def hasDup : List SceneItem → Bool
  | [] => false
  | x :: xs => xs.contains x || hasDup xs

/-- Compositor contract for `obs_scene_reorder_items2` (spec §6
`applyFullOrder` and §4.3 steps 3-4): the arrangement is rejected as a
whole when it holds a duplicate or an item foreign to the scene;
otherwise the scene order becomes the given list, the first list element
at position 0, with the items absent from the list keeping their
relative order after it. -/
def applyFullOrder (scene : Scene) (order : List SceneItem) : Option (List SceneItem) :=
  if hasDup order || order.any (fun it => !(scene.items.contains it)) then none
  else some (order ++ scene.items.filter (fun it => !(order.contains it)))

/-- `HandleReorderSceneItems` (lines 115-170): locate the scene from the
optional `scene` field, require the `items` array, then inside
`obs_scene_atomic_update` resolve every identifier (inserting each at
the front of the order list) and hand the built list to
`obs_scene_reorder_items2`. -/
def handleReorderSceneItems (w : World) (d : ObsData) : HandlerResult :=
  match getSceneFromNameOrCurrent w (getString d "scene") with
  | none => ⟨Response.err "requested scene doesn\x27t exist", w, []⟩
  | some scene =>
    match getArray d "items" with
    | none => ⟨Response.err "sceneItem order not specified", w, []⟩
    | some items =>
      match buildOrderList scene items [] with
      | none =>
        ⟨Response.err "Invalid sceneItem id or name specified", w,
         [Ev.beginAtomic scene.name, Ev.endAtomic scene.name]⟩
      | some orderList =>
        match applyFullOrder scene orderList with
        | none =>
          ⟨Response.err "Invalid sceneItem order", w,
           [Ev.beginAtomic scene.name, Ev.applyFullOrder scene.name orderList,
            Ev.endAtomic scene.name]⟩
        | some newItems =>
          ⟨Response.ok none, setSceneOrder w scene.name newItems,
           [Ev.beginAtomic scene.name, Ev.applyFullOrder scene.name orderList,
            Ev.endAtomic scene.name]⟩

/-- The C narrowing `int pos = obs_data_get_int(...)`: the 64-bit value
reduced modulo 2^32 and reinterpreted as a signed 32-bit integer. -/
def toInt32 (n : Int) : Int :=
  if n % 4294967296 < 2147483648 then n % 4294967296
  else n % 4294967296 - 4294967296

/-- Spec §4.5 compositor behavior for `obs_sceneitem_set_order_position`:
move the item to the requested position, clamped into range, shifting the
rest. -/
def setAtIndex (items : List SceneItem) (it : SceneItem) (pos : Int) : List SceneItem :=
  if items.contains it then
    (items.erase it).insertIdx (min pos.toNat (items.erase it).length) it
  else items

/-- Spec §4.4 compositor behavior for `obs_sceneitem_set_order`, one step
toward the front (position 0): swap with the previous item, a no-op at
the front or when absent. -/
def moveUpOne (items : List SceneItem) (it : SceneItem) : List SceneItem :=
  match items with
  | [] => []
  | [x] => [x]
  | x :: y :: rest =>
    if x == it then x :: y :: rest
    else if y == it then y :: x :: rest
    else x :: moveUpOne (y :: rest) it

/-- Spec §4.4 compositor behavior, one step toward the back: swap with
the next item, a no-op at the back or when absent. -/
def moveDownOne (items : List SceneItem) (it : SceneItem) : List SceneItem :=
  match items with
  | [] => []
  | [x] => [x]
  | x :: y :: rest =>
    if x == it then y :: x :: rest
    else x :: moveDownOne (y :: rest) it

/-- Spec §4.4 compositor behavior for a relative move. -/
def moveItem (items : List SceneItem) (it : SceneItem) : Movement → List SceneItem
  | Movement.up => moveUpOne items it
  | Movement.down => moveDownOne items it
  | Movement.top => if items.contains it then it :: items.erase it else items
  | Movement.bottom => if items.contains it then items.erase it ++ [it] else items

/-- `HandleSetSceneItemIndex` (lines 172-206): require the three fields,
look up the scene, look up the item by name, narrow the index to `int`
and call `obs_sceneitem_set_order_position`, returning success
unconditionally.  `mutOk` is the outcome the compositor reports for the
mutation (spec §6 types `setIndex` as returning bool); the source ignores
it. -/
def handleSetSceneItemIndex (mutOk : Bool) (w : World) (d : ObsData) : HandlerResult :=
  if !(hasField d "scene-name") then ⟨Response.err "Scene name not specified", w, []⟩
  else if !(hasField d "item") then ⟨Response.err "Item name not specified", w, []⟩
  else if !(hasField d "index") then ⟨Response.err "Item index not specified", w, []⟩
  else
    match findScene w (getString d "scene-name") with
    | none => ⟨Response.err "Scene does not exist", w, []⟩
    | some scene =>
      match findSource scene (getString d "item") with
      | none => ⟨Response.err "Unable to find item in scene", w, []⟩
      | some sceneItem =>
        let pos := toInt32 (getInt d "index")
        ⟨Response.ok none,
         if mutOk then setSceneOrder w scene.name (setAtIndex scene.items sceneItem pos) else w,
         [Ev.setOrderPosition sceneItem.id pos]⟩

/-- `HandleSetSceneItemOrder` (lines 208-265): require `scene-name`,
look up the scene, require `item`, look up the item by name, require
`order`, match the order token, call `obs_sceneitem_set_order`, and
return a payload echoing the request fields `source` and `scene`.
`mutOk` is the outcome the compositor reports for the mutation (spec §6
types `moveRelative` as returning bool); the source ignores it. -/
def handleSetSceneItemOrder (mutOk : Bool) (w : World) (d : ObsData) : HandlerResult :=
  if !(hasField d "scene-name") then ⟨Response.err "Scene name must be specified", w, []⟩
  else
    match findScene w (getString d "scene-name") with
    | none => ⟨Response.err "Scene does not exist", w, []⟩
    | some scene =>
      if !(hasField d "item") then ⟨Response.err "Item is not specified", w, []⟩
      else
        match findSource scene (getString d "item") with
        | none => ⟨Response.err "Unable to find source in scene", w, []⟩
        | some item =>
          if !(hasField d "order") then ⟨Response.err "Invalid order specified", w, []⟩
          else
            match parseMovement (getString d "order") with
            | none => ⟨Response.err "Unknown order", w, []⟩
            | some mv =>
              ⟨Response.ok (some [("source", ObsVal.vStr (getString d "source")),
                                  ("scene", ObsVal.vStr (getString d "scene"))]),
               if mutOk then setSceneOrder w scene.name (moveItem scene.items item mv) else w,
               [Ev.setOrder item.id mv]⟩

/-- A trace event that mutates the scene order. -/
def isMutationEv : Ev → Bool
  | Ev.applyFullOrder _ _ => true
  | Ev.setOrderPosition _ _ => true
  | Ev.setOrder _ _ => true
  | _ => false

/-- A trace event opening an atomic-update region. -/
def isBeginAtomic : Ev → Bool
  | Ev.beginAtomic _ => true
  | _ => false

/-- A trace event handing a full order to the compositor. -/
def isApplyEv : Ev → Bool
  | Ev.applyFullOrder _ _ => true
  | _ => false

/-- Every mutation event of the trace happens while at least one
atomic-update region is open (`depth` counts the regions open so far). -/
def mutationsInAtomic : List Ev → Nat → Bool
  | [], _ => true
  | Ev.beginAtomic _ :: rest, depth => mutationsInAtomic rest (depth + 1)
  | Ev.endAtomic _ :: rest, depth => mutationsInAtomic rest (depth - 1)
  | e :: rest, depth => (!(isMutationEv e) || decide (0 < depth)) && mutationsInAtomic rest depth

/-- The error messages the handlers emit for an absent required field. -/
def isMissingParamMsg (s : String) : Bool :=
  s == "sceneItem order not specified" ||
  s == "Scene name not specified" ||
  s == "Item name not specified" ||
  s == "Item index not specified" ||
  s == "Scene name must be specified" ||
  s == "Item is not specified" ||
  s == "Invalid order specified"

/-! ## Helper lemmas -/

/-- The insert-at-front loop builds the reverse of the resolved
sequence (appended to the accumulator). -/
lemma buildOrderList_eq_resolveAll (scene : Scene) (L : List ItemIdent) :
    ∀ acc, buildOrderList scene L acc =
      (resolveAll scene L).map (fun res => res.reverse ++ acc) := by
  induction L with
  | nil => intro acc; simp [buildOrderList, resolveAll]
  | cons ident rest ih =>
    intro acc
    cases h : getSceneItemFromItem scene ident with
    | none => simp [buildOrderList, resolveAll, h]
    | some it =>
      simp only [buildOrderList, resolveAll, h, ih]
      cases hr : resolveAll scene rest with
      | none => simp
      | some res => simp

/-- If some identifier in the list fails to resolve, the loop fails. -/
lemma buildOrderList_none_of_any (scene : Scene) (L : List ItemIdent) :
    ∀ acc, L.any (fun i => (getSceneItemFromItem scene i).isNone) = true →
      buildOrderList scene L acc = none := by
  induction L with
  | nil => intro acc h; simp at h
  | cons ident rest ih =>
    intro acc h
    cases hi : getSceneItemFromItem scene ident with
    | none => simp [buildOrderList, hi]
    | some it =>
      simp only [List.any_cons, hi, Option.isNone_some, Bool.false_or] at h
      simp only [buildOrderList, hi]
      exact ih _ h

/-- Filtering away the elements satisfying `p` from a list on which `p`
holds everywhere leaves nothing. -/
lemma filter_not_of_all (l : List SceneItem) (p : SceneItem → Bool) :
    l.all p = true → l.filter (fun x => !(p x)) = [] := by
  induction l with
  | nil => intro _; rfl
  | cons x xs ih =>
    intro h
    simp only [List.all_cons, Bool.and_eq_true] at h
    simp [List.filter_cons, h.1, ih h.2]

/-- A scene found under a key bears that key as its name. -/
lemma findScene_name {w : World} {key : String} {sc : Scene}
    (h : findScene w key = some sc) : sc.name = key := by
  have := List.find?_some h
  simpa using this

/-- Locating via `getSceneFromNameOrCurrent` is a `findScene` lookup
under the scene's own name. -/
lemma findScene_of_getSceneFromNameOrCurrent {w : World} {n : String} {sc : Scene}
    (h : getSceneFromNameOrCurrent w n = some sc) : findScene w sc.name = some sc := by
  unfold getSceneFromNameOrCurrent at h
  by_cases hn : (n == "") = true
  · rw [if_pos hn] at h
    rw [findScene_name h]; exact h
  · rw [if_neg hn] at h
    rw [findScene_name h]; exact h

/-- Updating the order of a found scene updates exactly that scene in
the lookup. -/
lemma find?_map_update (l : List Scene) (n : String) (order : List SceneItem) (sc : Scene)
    (h : l.find? (fun s => s.name == n) = some sc) :
    (l.map (fun s => if s.name == sc.name then { s with items := order } else s)).find?
      (fun s => s.name == n) = some { sc with items := order } := by
  induction l with
  | nil => simp at h
  | cons s rest ih =>
    by_cases hs : (s.name == n) = true
    · rw [List.find?_cons_of_pos (p := fun s : Scene => s.name == n) _ hs] at h
      injection h with h
      subst h
      simp only [List.map_cons, beq_self_eq_true, if_pos]
      exact List.find?_cons_of_pos (p := fun s : Scene => s.name == n) _ hs
    · rw [List.find?_cons_of_neg (p := fun s : Scene => s.name == n) _ hs] at h
      have hscn : (sc.name == n) = true := by
        have := List.find?_some h
        simpa using this
      have hsne : (s.name == sc.name) = false := by
        simp only [beq_iff_eq] at hs hscn ⊢
        simp only [beq_eq_false_iff_ne]
        intro hcontra
        exact hs (hcontra ▸ hscn)
      simp only [List.map_cons, hsne, Bool.false_eq_true, if_false]
      rw [List.find?_cons_of_neg (p := fun s : Scene => s.name == n) _ (by simp [hsne] at hs ⊢; exact hs)]
      exact ih h

/-- `setSceneOrder` at a found scene's name makes later lookups see the
new order. -/
lemma findScene_setSceneOrder {w : World} {key : String} {sc : Scene} (order : List SceneItem)
    (h : findScene w key = some sc) :
    findScene (setSceneOrder w sc.name order) key = some { sc with items := order } := by
  unfold findScene setSceneOrder
  exact find?_map_update w.scenes key order sc h

/-- `findSource` is exactly the first-name-match rule. -/
lemma findSource_eq_firstNameMatch (sc : Scene) (n : String) :
    findSource sc n = firstNameMatch sc.items n := by
  unfold findSource
  induction sc.items with
  | nil => rfl
  | cons it rest ih =>
    by_cases hit : (it.name == n) = true
    · rw [List.find?_cons_of_pos (p := fun it : SceneItem => it.name == n) _ hit]
      simp [firstNameMatch, hit]
    · rw [List.find?_cons_of_neg (p := fun it : SceneItem => it.name == n) _ hit]
      simp only [firstNameMatch, hit]
      simpa [hit] using ih

/-! ## Concrete fixtures (spec §8 example scene) -/

/-- Item A, id 1, position 0. -/
def itemA : SceneItem := ⟨1, "A"⟩

/-- Item B, id 2, position 1. -/
def itemB : SceneItem := ⟨2, "B"⟩

/-- Item C, id 3, position 2. -/
def itemC : SceneItem := ⟨3, "C"⟩

/-- The spec §8 example scene: items A(id 1), B(id 2), C(id 3). -/
def mainScene : Scene := ⟨"Main", [itemA, itemB, itemC]⟩

/-- A world holding only the example scene, which is current. -/
def w0 : World := ⟨[mainScene], "Main"⟩

/-- The spec §8 reorder request: `reorder("Main", [{id:3},{id:1},{id:2}])`. -/
def reorderReq : ObsData :=
  [("scene", ObsVal.vStr "Main"),
   ("items", ObsVal.vArr [⟨some 3, none⟩, ⟨some 1, none⟩, ⟨some 2, none⟩])]

/-- The spec §8 failing reorder request: `reorder("Main", [{id:3},{id:99}])`. -/
def badReorderReq : ObsData :=
  [("scene", ObsVal.vStr "Main"),
   ("items", ObsVal.vArr [⟨some 3, none⟩, ⟨some 99, none⟩])]

/-! ## Claims -/

/-- C1 (amended): for every scene and full reorder list in which every
identifier resolves, the executor hands the compositor the REVERSE of
the resolved sequence (it inserts each resolved item at the front of
the list it builds), and afterwards the scene's order matches the
reverse of the resolved sequence. -/
theorem C1_reorder_passes_reversed_sequence
    (w : World) (d : ObsData) (scene : Scene) (L : List ItemIdent) (res : List SceneItem)
    (hscene : getSceneFromNameOrCurrent w (getString d "scene") = some scene)
    (hitems : getArray d "items" = some L)
    (hres : resolveAll scene L = some res)
    (hnodup : hasDup res.reverse = false)
    (hmem : res.reverse.any (fun it => !(scene.items.contains it)) = false)
    (hfull : scene.items.all (fun it => res.reverse.contains it) = true) :
    handleReorderSceneItems w d =
      ⟨Response.ok none, setSceneOrder w scene.name res.reverse,
       [Ev.beginAtomic scene.name, Ev.applyFullOrder scene.name res.reverse,
        Ev.endAtomic scene.name]⟩
    ∧ findScene (handleReorderSceneItems w d).world scene.name
        = some { scene with items := res.reverse } := by
  have hb : buildOrderList scene L [] = some res.reverse := by
    rw [buildOrderList_eq_resolveAll, hres]
    simp
  have hfilter : scene.items.filter (fun it => !(res.reverse.contains it)) = [] :=
    filter_not_of_all _ _ hfull
  have happ : applyFullOrder scene res.reverse = some res.reverse := by
    unfold applyFullOrder
    rw [hnodup, hmem, hfilter]
    simp
  have hmain : handleReorderSceneItems w d =
      ⟨Response.ok none, setSceneOrder w scene.name res.reverse,
       [Ev.beginAtomic scene.name, Ev.applyFullOrder scene.name res.reverse,
        Ev.endAtomic scene.name]⟩ := by
    simp [handleReorderSceneItems, hscene, hitems, hb, happ]
  refine ⟨hmain, ?_⟩
  rw [hmain]
  exact findScene_setSceneOrder res.reverse (findScene_of_getSceneFromNameOrCurrent hscene)

/-- C1 counterexample: on the spec §8 example, the resolved sequence of
`[{id:3},{id:1},{id:2}]` is `[C, A, B]`, yet the compositor receives
`[B, A, C]` and the scene ends in order `[B, A, C]`, not `[C, A, B]` —
the executor does NOT pass the resolved sequence through in the order
the caller supplied it. -/
theorem C1_counterexample :
    resolveAll mainScene [⟨some 3, none⟩, ⟨some 1, none⟩, ⟨some 2, none⟩]
      = some [itemC, itemA, itemB]
    ∧ (handleReorderSceneItems w0 reorderReq).trace
        = [Ev.beginAtomic "Main", Ev.applyFullOrder "Main" [itemB, itemA, itemC],
           Ev.endAtomic "Main"]
    ∧ findScene (handleReorderSceneItems w0 reorderReq).world "Main"
        = some ⟨"Main", [itemB, itemA, itemC]⟩
    ∧ ([itemB, itemA, itemC] : List SceneItem) ≠ [itemC, itemA, itemB] := by
  decide

/-- C1 witness: the amended claim at the spec §8 example. -/
theorem C1_witness :
    handleReorderSceneItems w0 reorderReq =
      ⟨Response.ok none, setSceneOrder w0 mainScene.name ([itemC, itemA, itemB]).reverse,
       [Ev.beginAtomic mainScene.name,
        Ev.applyFullOrder mainScene.name ([itemC, itemA, itemB]).reverse,
        Ev.endAtomic mainScene.name]⟩
    ∧ findScene (handleReorderSceneItems w0 reorderReq).world mainScene.name
        = some { mainScene with items := ([itemC, itemA, itemB]).reverse } :=
  C1_reorder_passes_reversed_sequence w0 reorderReq mainScene
    [⟨some 3, none⟩, ⟨some 1, none⟩, ⟨some 2, none⟩] [itemC, itemA, itemB]
    (by decide) (by decide) (by decide) (by decide) (by decide) (by decide)

/-- C2: a reorder list containing an identifier that does not resolve
mutates nothing: the world is unchanged, `obs_scene_reorder_items2` is
never invoked, and the handler returns the reorder-validation-failed
error ("Invalid sceneItem id or name specified"). -/
theorem C2_reorder_invalid_identifier_no_mutation
    (w : World) (d : ObsData) (scene : Scene) (L : List ItemIdent)
    (hscene : getSceneFromNameOrCurrent w (getString d "scene") = some scene)
    (hitems : getArray d "items" = some L)
    (hbad : L.any (fun i => (getSceneItemFromItem scene i).isNone) = true) :
    handleReorderSceneItems w d =
      ⟨Response.err "Invalid sceneItem id or name specified", w,
       [Ev.beginAtomic scene.name, Ev.endAtomic scene.name]⟩
    ∧ (handleReorderSceneItems w d).world = w
    ∧ (handleReorderSceneItems w d).trace.all (fun e => !(isApplyEv e)) = true := by
  have hb : buildOrderList scene L [] = none := buildOrderList_none_of_any scene L [] hbad
  have hmain : handleReorderSceneItems w d =
      ⟨Response.err "Invalid sceneItem id or name specified", w,
       [Ev.beginAtomic scene.name, Ev.endAtomic scene.name]⟩ := by
    simp [handleReorderSceneItems, hscene, hitems, hb]
  exact ⟨hmain, by rw [hmain], by simp [hmain, isApplyEv]⟩

/-- C2 witness: the spec §8 failing example `reorder("Main",
[{id:3},{id:99}])` leaves the world untouched, never calls the
compositor's full-order application, and reports the validation
failure. -/
theorem C2_witness :
    handleReorderSceneItems w0 badReorderReq =
      ⟨Response.err "Invalid sceneItem id or name specified", w0,
       [Ev.beginAtomic mainScene.name, Ev.endAtomic mainScene.name]⟩
    ∧ (handleReorderSceneItems w0 badReorderReq).world = w0
    ∧ (handleReorderSceneItems w0 badReorderReq).trace.all (fun e => !(isApplyEv e)) = true :=
  C2_reorder_invalid_identifier_no_mutation w0 badReorderReq mainScene
    [⟨some 3, none⟩, ⟨some 99, none⟩] (by decide) (by decide) (by decide)

/-- C3 (amended): only the full reorder runs inside a scoped
atomic-update region; `HandleSetSceneItemIndex` and
`HandleSetSceneItemOrder` hand their mutation to the compositor as a
direct call, with no atomic-update region ever opened. -/
theorem C3_only_reorder_is_atomic (mutOk : Bool) (w : World) (d : ObsData) :
    mutationsInAtomic (handleReorderSceneItems w d).trace 0 = true
    ∧ (handleSetSceneItemIndex mutOk w d).trace.all (fun e => !(isBeginAtomic e)) = true
    ∧ (handleSetSceneItemOrder mutOk w d).trace.all (fun e => !(isBeginAtomic e)) = true := by
  refine ⟨?_, ?_, ?_⟩
  · unfold handleReorderSceneItems
    repeat' split
    all_goals rfl
  · unfold handleSetSceneItemIndex
    repeat' split
    all_goals rfl
  · unfold handleSetSceneItemOrder
    repeat' split
    all_goals rfl

/-- The set-item-index request used to exhibit the missing atomic
region and the ignored compositor outcome. -/
def idxReq : ObsData :=
  [("scene-name", ObsVal.vStr "Main"), ("item", ObsVal.vStr "A"),
   ("index", ObsVal.vInt 0)]

/-- C3 counterexample: a set-item-index request performs its mutation
with no atomic-update region open — a concurrent reader is not
protected by any region for this operation, contradicting the claim
that EVERY mutating operation runs inside one. -/
theorem C3_counterexample :
    (handleSetSceneItemIndex true w0 idxReq).trace = [Ev.setOrderPosition 1 0]
    ∧ (handleSetSceneItemIndex true w0 idxReq).trace.any isMutationEv = true
    ∧ mutationsInAtomic (handleSetSceneItemIndex true w0 idxReq).trace 0 = false := by
  decide

/-- C4 (amended): once a set-item-index or set-item-order request
reaches the mutation step, the handler returns success unconditionally,
whatever outcome (`mutOk`) the compositor reports for the mutation —
the outcome is ignored, never propagated. -/
theorem C4_mutation_outcome_ignored (mutOk : Bool) (w : World) (d : ObsData) :
    (∀ scene it,
      hasField d "scene-name" = true → hasField d "item" = true →
      hasField d "index" = true →
      findScene w (getString d "scene-name") = some scene →
      findSource scene (getString d "item") = some it →
      (handleSetSceneItemIndex mutOk w d).response = Response.ok none)
    ∧ (∀ scene it mv,
      hasField d "scene-name" = true →
      findScene w (getString d "scene-name") = some scene →
      hasField d "item" = true →
      findSource scene (getString d "item") = some it →
      hasField d "order" = true →
      parseMovement (getString d "order") = some mv →
      (handleSetSceneItemOrder mutOk w d).response =
        Response.ok (some [("source", ObsVal.vStr (getString d "source")),
                           ("scene", ObsVal.vStr (getString d "scene"))])) := by
  constructor
  · intro scene it h1 h2 h3 h4 h5
    simp [handleSetSceneItemIndex, h1, h2, h3, h4, h5]
  · intro scene it mv h1 h2 h3 h4 h5 h6
    simp [handleSetSceneItemOrder, h1, h2, h3, h4, h5, h6]

/-- C4 counterexample: with the compositor refusing the mutation
(`mutOk = false`), the set-item-index handler still answers with a
success response — the refusal is not propagated as any failure. -/
theorem C4_counterexample :
    (handleSetSceneItemIndex false w0 idxReq).response = Response.ok none
    ∧ (handleSetSceneItemIndex false w0 idxReq).trace = [Ev.setOrderPosition 1 0] := by
  decide

/-- C4 witness: the amended claim at a concrete refused mutation. -/
theorem C4_witness :
    (handleSetSceneItemIndex false w0 idxReq).response = Response.ok none :=
  (C4_mutation_outcome_ignored false w0 idxReq).1 mainScene itemA
    (by decide) (by decide) (by decide) (by decide) (by decide)

/-- A normal set-item-order request: the required fields `scene-name`,
`item` and `order`, nothing else. -/
def orderReq : ObsData :=
  [("scene-name", ObsVal.vStr "Main"), ("item", ObsVal.vStr "B"),
   ("order", ObsVal.vStr "OBS_ORDER_MOVE_UP")]

/-- C5 (code bug): the success payload of `HandleSetSceneItemOrder` is
built from the request fields `source` and `scene` (source lines
261-262), which are NOT the operation's required input fields
(`scene-name` and `item`) and are absent from a normal request — so the
payload echoes two empty strings instead of the caller's identifiers
"Main" and "B". -/
theorem C5_payload_reads_wrong_fields :
    getString orderReq "scene-name" = "Main"
    ∧ getString orderReq "item" = "B"
    ∧ hasField orderReq "scene" = false
    ∧ hasField orderReq "source" = false
    ∧ (handleSetSceneItemOrder true w0 orderReq).response =
        Response.ok (some [("source", ObsVal.vStr ""), ("scene", ObsVal.vStr "")]) := by
  decide

/-- A set-item-order request whose `item` field is an object carrying
an item id, as the reorder operation accepts. -/
def objItemOrderReq : ObsData :=
  [("scene-name", ObsVal.vStr "Main"), ("item", ObsVal.vObj ⟨some 2, none⟩),
   ("order", ObsVal.vStr "OBS_ORDER_MOVE_UP")]

/-- A set-item-index request whose `item` field is an object carrying
an item id. -/
def objItemIdxReq : ObsData :=
  [("scene-name", ObsVal.vStr "Main"), ("item", ObsVal.vObj ⟨some 2, none⟩),
   ("index", ObsVal.vInt 0)]

/-- C6 counterexample: the scene has an item of id 2 and the item
resolver of the reorder path resolves `{id: 2}` to it, but the
set-item-order and set-item-index handlers read `item` as a plain
string (an id-carrying object reads as the empty string) and fail with
the item-not-found error — an id is never authoritative there, in fact
it cannot be supplied at all. -/
theorem C6_counterexample :
    getSceneItemFromItem mainScene ⟨some 2, none⟩ = some itemB
    ∧ getString objItemOrderReq "item" = ""
    ∧ (handleSetSceneItemOrder true w0 objItemOrderReq).response =
        Response.err "Unable to find source in scene"
    ∧ (handleSetSceneItemIndex true w0 objItemIdxReq).response =
        Response.err "Unable to find item in scene" := by
  decide

/-- C6 (amended): for set-item-index and set-item-order the item input
is a single string; resolution always returns the first item in scene
order whose name equals that string (no id is ever consulted, and a
non-string `item` value reads as the empty string). -/
theorem C6_item_resolution_by_name_only (mutOk : Bool) (w : World) (d : ObsData) :
    (∀ sc : Scene, ∀ n : String, findSource sc n = firstNameMatch sc.items n)
    ∧ (∀ (o : ItemIdent) (rest : List (String × ObsVal)),
        getString (("item", ObsVal.vObj o) :: rest) "item" = "")
    ∧ (∀ scene : Scene,
        hasField d "scene-name" = true → hasField d "item" = true →
        hasField d "index" = true →
        findScene w (getString d "scene-name") = some scene →
        findSource scene (getString d "item") = none →
        (handleSetSceneItemIndex mutOk w d).response =
          Response.err "Unable to find item in scene")
    ∧ (∀ scene : Scene,
        hasField d "scene-name" = true →
        findScene w (getString d "scene-name") = some scene →
        hasField d "item" = true →
        findSource scene (getString d "item") = none →
        (handleSetSceneItemOrder mutOk w d).response =
          Response.err "Unable to find source in scene")
    ∧ (∀ (scene : Scene) (it : SceneItem) (mv : Movement),
        hasField d "scene-name" = true →
        findScene w (getString d "scene-name") = some scene →
        hasField d "item" = true →
        findSource scene (getString d "item") = some it →
        hasField d "order" = true →
        parseMovement (getString d "order") = some mv →
        (handleSetSceneItemOrder mutOk w d).trace = [Ev.setOrder it.id mv]) := by
  refine ⟨findSource_eq_firstNameMatch, ?_, ?_, ?_, ?_⟩
  · intro o rest
    simp [getString]
  · intro scene h1 h2 h3 h4 h5
    simp [handleSetSceneItemIndex, h1, h2, h3, h4, h5]
  · intro scene h1 h2 h3 h4
    simp [handleSetSceneItemOrder, h1, h2, h3, h4]
  · intro scene it mv h1 h2 h3 h4 h5 h6
    simp [handleSetSceneItemOrder, h1, h2, h3, h4, h5, h6]

/-- C6 witness: the amended claim at a concrete request whose item
name "B" resolves to the first (and only) item of that name. -/
theorem C6_witness :
    (handleSetSceneItemOrder true w0 orderReq).trace = [Ev.setOrder itemB.id Movement.up] :=
  (C6_item_resolution_by_name_only true w0 orderReq).2.2.2.2 mainScene itemB Movement.up
    (by decide) (by decide) (by decide) (by decide) (by decide) (by decide)

/-- C7: scene locating — a non-empty supplied name is looked up exactly
and a missing scene of that name is a scene-not-found failure, never a
fallback to the current scene; an empty name (reorder, where the field
is optional) uses the currently active scene. -/
theorem C7_scene_locating (w : World) (d : ObsData) :
    (getString d "scene" ≠ "" →
      getSceneFromNameOrCurrent w (getString d "scene") = findScene w (getString d "scene"))
    ∧ (getString d "scene" = "" →
      getSceneFromNameOrCurrent w (getString d "scene") = findScene w w.currentName)
    ∧ (getSceneFromNameOrCurrent w (getString d "scene") = none →
      handleReorderSceneItems w d = ⟨Response.err "requested scene doesn\x27t exist", w, []⟩)
    ∧ (hasField d "scene-name" = true → hasField d "item" = true →
      hasField d "index" = true →
      findScene w (getString d "scene-name") = none →
      ∀ mutOk, handleSetSceneItemIndex mutOk w d = ⟨Response.err "Scene does not exist", w, []⟩)
    ∧ (hasField d "scene-name" = true →
      findScene w (getString d "scene-name") = none →
      ∀ mutOk, handleSetSceneItemOrder mutOk w d = ⟨Response.err "Scene does not exist", w, []⟩) := by
  refine ⟨?_, ?_, ?_, ?_, ?_⟩
  · intro hne
    simp [getSceneFromNameOrCurrent, hne]
  · intro he
    simp [getSceneFromNameOrCurrent, he]
  · intro hnone
    simp [handleReorderSceneItems, hnone]
  · intro h1 h2 h3 h4 mutOk
    simp [handleSetSceneItemIndex, h1, h2, h3, h4]
  · intro h1 h2 mutOk
    simp [handleSetSceneItemOrder, h1, h2]

/-- A reorder request naming a scene that does not exist. -/
def ghostReorderReq : ObsData :=
  [("scene", ObsVal.vStr "Ghost"), ("items", ObsVal.vArr [⟨some 1, none⟩])]

/-- C7 witness: naming the nonexistent scene "Ghost" fails with the
scene-not-found error even though a current scene exists. -/
theorem C7_witness :
    handleReorderSceneItems w0 ghostReorderReq =
      ⟨Response.err "requested scene doesn\x27t exist", w0, []⟩ :=
  (C7_scene_locating w0 ghostReorderReq).2.2.1 (by decide)

/-- C8: exactly the four order tokens "OBS_ORDER_MOVE_UP",
"OBS_ORDER_MOVE_DOWN", "OBS_ORDER_MOVE_TOP", "OBS_ORDER_MOVE_BOTTOM"
(the wire spelling of the spec's MOVE_UP / MOVE_DOWN / MOVE_TOP /
MOVE_BOTTOM tokens, cf. spec §8's "OBS_ORDER_MOVE_BOTTOM"-equivalent)
are recognized as directions; any other order string yields the
distinct "Unknown order" failure rather than being silently ignored. -/
theorem C8_order_token_recognition (mutOk : Bool) (w : World) (d : ObsData) :
    (∀ s : String, (parseMovement s).isSome = true ↔
      (s = "OBS_ORDER_MOVE_UP" ∨ s = "OBS_ORDER_MOVE_DOWN" ∨
       s = "OBS_ORDER_MOVE_TOP" ∨ s = "OBS_ORDER_MOVE_BOTTOM"))
    ∧ parseMovement "OBS_ORDER_MOVE_UP" = some Movement.up
    ∧ parseMovement "OBS_ORDER_MOVE_DOWN" = some Movement.down
    ∧ parseMovement "OBS_ORDER_MOVE_TOP" = some Movement.top
    ∧ parseMovement "OBS_ORDER_MOVE_BOTTOM" = some Movement.bottom
    ∧ (∀ (scene : Scene) (it : SceneItem),
       hasField d "scene-name" = true →
       findScene w (getString d "scene-name") = some scene →
       hasField d "item" = true →
       findSource scene (getString d "item") = some it →
       hasField d "order" = true →
       parseMovement (getString d "order") = none →
       handleSetSceneItemOrder mutOk w d = ⟨Response.err "Unknown order", w, []⟩) := by
  refine ⟨?_, by decide, by decide, by decide, by decide, ?_⟩
  · intro s
    unfold parseMovement
    split_ifs with h1 h2 h3 h4 <;> simp_all
  · intro scene it h1 h2 h3 h4 h5 h6
    simp [handleSetSceneItemOrder, h1, h2, h3, h4, h5, h6]

/-- A set-item-order request bearing an unrecognized order token. -/
def unknownOrderReq : ObsData :=
  [("scene-name", ObsVal.vStr "Main"), ("item", ObsVal.vStr "B"),
   ("order", ObsVal.vStr "SHUFFLE")]

/-- C8 witness: the unrecognized token "SHUFFLE" is answered with the
"Unknown order" failure. -/
theorem C8_witness :
    handleSetSceneItemOrder true w0 unknownOrderReq =
      ⟨Response.err "Unknown order", w0, []⟩ :=
  (C8_order_token_recognition true w0 unknownOrderReq).2.2.2.2.2 mainScene itemB
    (by decide) (by decide) (by decide) (by decide) (by decide) (by decide)

/-- A set-item-order request that names a nonexistent scene and lacks
the required `item` and `order` fields. -/
def c9Req : ObsData := [("scene-name", ObsVal.vStr "Ghost")]

/-- C9 counterexample: a set-item-order request lacking the required
`item` field is answered with "Scene does not exist" — the scene lookup
ran first and its failure masked the missing parameter, so the missing
field was neither reported as a missing-parameter error nor detected
before a lookup. -/
theorem C9_counterexample :
    hasField c9Req "item" = false
    ∧ hasField c9Req "order" = false
    ∧ (handleSetSceneItemOrder true w0 c9Req).response = Response.err "Scene does not exist"
    ∧ isMissingParamMsg "Scene does not exist" = false := by
  decide

/-- C9 (amended): a missing required field is reported with that
operation's missing-parameter error only at its place in the handler's
own check sequence: set-item-index checks `scene-name`, `item`, `index`
before any lookup; set-item-order checks `scene-name` before the scene
lookup but detects a missing `item` only after the scene lookup
succeeds and a missing `order` only after the item lookup succeeds; the
reorder operation detects a missing `items` array only after the scene
is located. -/
theorem C9_missing_field_detection_order (mutOk : Bool) (w : World) (d : ObsData) :
    (hasField d "scene-name" = false →
      handleSetSceneItemIndex mutOk w d = ⟨Response.err "Scene name not specified", w, []⟩)
    ∧ (hasField d "scene-name" = true → hasField d "item" = false →
      handleSetSceneItemIndex mutOk w d = ⟨Response.err "Item name not specified", w, []⟩)
    ∧ (hasField d "scene-name" = true → hasField d "item" = true →
      hasField d "index" = false →
      handleSetSceneItemIndex mutOk w d = ⟨Response.err "Item index not specified", w, []⟩)
    ∧ (hasField d "scene-name" = false →
      handleSetSceneItemOrder mutOk w d = ⟨Response.err "Scene name must be specified", w, []⟩)
    ∧ (∀ scene : Scene, hasField d "scene-name" = true →
      findScene w (getString d "scene-name") = some scene →
      hasField d "item" = false →
      handleSetSceneItemOrder mutOk w d = ⟨Response.err "Item is not specified", w, []⟩)
    ∧ (∀ (scene : Scene) (it : SceneItem), hasField d "scene-name" = true →
      findScene w (getString d "scene-name") = some scene →
      hasField d "item" = true →
      findSource scene (getString d "item") = some it →
      hasField d "order" = false →
      handleSetSceneItemOrder mutOk w d = ⟨Response.err "Invalid order specified", w, []⟩)
    ∧ (∀ scene : Scene, getSceneFromNameOrCurrent w (getString d "scene") = some scene →
      getArray d "items" = none →
      handleReorderSceneItems w d = ⟨Response.err "sceneItem order not specified", w, []⟩)
    ∧ isMissingParamMsg "Scene name not specified" = true
    ∧ isMissingParamMsg "Item is not specified" = true
    ∧ isMissingParamMsg "sceneItem order not specified" = true := by
  refine ⟨?_, ?_, ?_, ?_, ?_, ?_, ?_, by decide, by decide, by decide⟩
  · intro h1
    simp [handleSetSceneItemIndex, h1]
  · intro h1 h2
    simp [handleSetSceneItemIndex, h1, h2]
  · intro h1 h2 h3
    simp [handleSetSceneItemIndex, h1, h2, h3]
  · intro h1
    simp [handleSetSceneItemOrder, h1]
  · intro scene h1 h2 h3
    simp [handleSetSceneItemOrder, h1, h2, h3]
  · intro scene it h1 h2 h3 h4 h5
    simp [handleSetSceneItemOrder, h1, h2, h3, h4, h5]
  · intro scene h1 h2
    simp [handleReorderSceneItems, h1, h2]

/-- A set-item-order request that locates its scene but lacks `item`. -/
def missingItemReq : ObsData := [("scene-name", ObsVal.vStr "Main")]

/-- C9 witness: with the scene located, the missing `item` field is
reported with the missing-parameter error. -/
theorem C9_witness :
    handleSetSceneItemOrder true w0 missingItemReq =
      ⟨Response.err "Item is not specified", w0, []⟩ :=
  (C9_missing_field_detection_order true w0 missingItemReq).2.2.2.2.1 mainScene
    (by decide) (by decide) (by decide)

/-- C10: the 64-bit `index` of a set-item-index request is narrowed to
a signed 32-bit integer — reduced modulo 2^32 into
[-2^31, 2^31) — before being handed to
`obs_sceneitem_set_order_position`, and the request succeeds whatever
the 64-bit value was: out-of-range indexes are silently aliased, never
rejected. -/
theorem C10_index_narrowed_to_int32 :
    (∀ n : Int, toInt32 n % 4294967296 = n % 4294967296
      ∧ -2147483648 ≤ toInt32 n ∧ toInt32 n < 2147483648)
    ∧ (∀ (mutOk : Bool) (w : World) (d : ObsData) (scene : Scene) (it : SceneItem),
      hasField d "scene-name" = true → hasField d "item" = true →
      hasField d "index" = true →
      findScene w (getString d "scene-name") = some scene →
      findSource scene (getString d "item") = some it →
      (handleSetSceneItemIndex mutOk w d).trace
        = [Ev.setOrderPosition it.id (toInt32 (getInt d "index"))]
      ∧ (handleSetSceneItemIndex mutOk w d).response = Response.ok none) := by
  constructor
  · intro n
    unfold toInt32
    split <;> omega
  · intro mutOk w d scene it h1 h2 h3 h4 h5
    constructor <;> simp [handleSetSceneItemIndex, h1, h2, h3, h4, h5]

/-- A set-item-index request whose index 2^32 + 5 exceeds the 32-bit
range. -/
def narrowReq : ObsData :=
  [("scene-name", ObsVal.vStr "Main"), ("item", ObsVal.vStr "B"),
   ("index", ObsVal.vInt 4294967301)]

/-- C10 witness: index 2^32 + 5 is handed to the compositor as 5 and
the request still succeeds. -/
theorem C10_witness :
    (handleSetSceneItemIndex true w0 narrowReq).trace
      = [Ev.setOrderPosition itemB.id (toInt32 (getInt narrowReq "index"))]
    ∧ toInt32 (getInt narrowReq "index") = 5
    ∧ (handleSetSceneItemIndex true w0 narrowReq).response = Response.ok none := by
  have h := C10_index_narrowed_to_int32.2 true w0 narrowReq mainScene itemB
    (by decide) (by decide) (by decide) (by decide) (by decide)
  exact ⟨h.1, by decide, h.2⟩
